import Mathlib

/-
Verification of `hutil/csrc/RoIAlign.h` from pytorch-hrvvi-ext.

The header is entirely commented out; the commented-out text contains a
CPU/GPU dispatch shim for the RoIAlign operator.  Below we embed:

* the literal lines of the file (for the claim that every line is disabled);
* the dispatch logic written in the commented-out bodies of
  `RoIAlign_forward` and `RoIAlign_backward`, modelled as total Lean
  functions.  The `WITH_CUDA` preprocessor flag becomes a `Bool` parameter,
  the externally declared kernels (`RoIAlign_forward_cuda`,
  `RoIAlign_forward_cpu`, `RoIAlign_backward_cuda`, `RoIAlign_backward_cpu`,
  declared in `cpu/vision.h` / `cuda/vision.h`, not part of this repository)
  become function parameters, and the `AT_ERROR` abort becomes
  `Except.error` carrying the abort message.
-/

/-- Model of `at::Type` as the dispatch code sees it: the only property the
code inspects is `is_cuda()`, whether the tensor lives on a GPU device. -/
structure ATType where
  is_cuda : Bool
deriving DecidableEq

/-- Model of `at::Tensor`: a device type (queried via `.type().is_cuda()`)
plus an identifier standing for the tensor's otherwise-uninspected payload. -/
structure Tensor where
  type : ATType
  uid : Nat
deriving DecidableEq

/-- A C `float` value.  The dispatch code never computes with the scale
floats, it only forwards them, so the value stays abstract as raw bits. -/
structure CFloat where
  bits : Nat
deriving DecidableEq

/-- The type of the external forward kernels `RoIAlign_forward_cuda` and
`RoIAlign_forward_cpu`: seven arguments matching the forward parameter list,
returning a tensor. -/
abbrev ForwardKernel : Type :=
  Tensor → Tensor → CFloat → CFloat → Int → Int → Int → Tensor

/-- The type of the external backward kernels `RoIAlign_backward_cuda` and
`RoIAlign_backward_cpu`: eleven arguments matching the backward parameter
list, returning a tensor. -/
abbrev BackwardKernel : Type :=
  Tensor → Tensor → CFloat → CFloat → Int → Int → Int → Int → Int → Int → Int → Tensor

/-- `RoIAlign_forward` as written (commented out) in `RoIAlign.h`:

if `input.type().is_cuda()` then, under `#ifdef WITH_CUDA`, return
`RoIAlign_forward_cuda(input, rois, scale_h, scale_w, pooled_height,
pooled_width, sampling_ratio)`, and under `#else` abort with
`AT_ERROR("Not compiled with GPU support")`; otherwise return
`RoIAlign_forward_cpu(input, rois, scale_h, scale_w, pooled_height,
pooled_width, sampling_ratio)`. -/
def RoIAlign_forward (WITH_CUDA : Bool)
    (RoIAlign_forward_cuda RoIAlign_forward_cpu : ForwardKernel)
    (input rois : Tensor) (scale_h scale_w : CFloat)
    (pooled_height pooled_width sampling_ratio : Int) : Except String Tensor :=
  if input.type.is_cuda then
    if WITH_CUDA then
      Except.ok (RoIAlign_forward_cuda input rois scale_h scale_w
        pooled_height pooled_width sampling_ratio)
    else
      Except.error "Not compiled with GPU support"
  else
    Except.ok (RoIAlign_forward_cpu input rois scale_h scale_w
      pooled_height pooled_width sampling_ratio)

/-- `RoIAlign_backward` as written (commented out) in `RoIAlign.h`:

if `grad.type().is_cuda()` then, under `#ifdef WITH_CUDA`, return
`RoIAlign_backward_cuda(grad, rois, scale_h, scale_w, pooled_height,
pooled_width, batch_size, channels, height, width, sampling_ratio)`, and
under `#else` abort with `AT_ERROR("Not compiled with GPU support")`;
otherwise return `RoIAlign_backward_cpu` on the same arguments. -/
def RoIAlign_backward (WITH_CUDA : Bool)
    (RoIAlign_backward_cuda RoIAlign_backward_cpu : BackwardKernel)
    (grad rois : Tensor) (scale_h scale_w : CFloat)
    (pooled_height pooled_width batch_size channels height width sampling_ratio : Int) :
    Except String Tensor :=
  if grad.type.is_cuda then
    if WITH_CUDA then
      Except.ok (RoIAlign_backward_cuda grad rois scale_h scale_w
        pooled_height pooled_width batch_size channels height width sampling_ratio)
    else
      Except.error "Not compiled with GPU support"
  else
    Except.ok (RoIAlign_backward_cpu grad rois scale_h scale_w
      pooled_height pooled_width batch_size channels height width sampling_ratio)

/-- The three possible code paths of either dispatch wrapper. -/
inductive Branch where
  | cuda : Branch
  | cpu : Branch
  | abort : Branch
deriving DecidableEq

/-- Which code path a dispatch wrapper takes, as a function of the build flag
and the first tensor argument only (this is the condition structure of both
wrappers: `if first.type().is_cuda()` guarding `#ifdef WITH_CUDA`). -/
def dispatchBranch (WITH_CUDA : Bool) (first : Tensor) : Branch :=
  if first.type.is_cuda then
    if WITH_CUDA then Branch.cuda else Branch.abort
  else
    Branch.cpu

/-- A concrete tensor on a GPU device, for witnesses. -/
def tGPU : Tensor := ⟨⟨true⟩, 0⟩

/-- A concrete tensor on a CPU device, for witnesses. -/
def tCPU : Tensor := ⟨⟨false⟩, 1⟩

/-- A concrete float value, for witnesses. -/
def f0 : CFloat := ⟨0⟩

/-- A concrete forward kernel (returns its first argument), for witnesses. -/
def kfId : ForwardKernel := fun input _ _ _ _ _ _ => input

/-- A concrete backward kernel (returns its first argument), for witnesses. -/
def kbId : BackwardKernel := fun grad _ _ _ _ _ _ _ _ _ _ => grad

/-- The 55 lines of `hutil/csrc/RoIAlign.h`, verbatim. -/
def RoIAlign_h_lines : List String := [
  "// #pragma once",
  "",
  "// #include \"cpu/vision.h\"",
  "",
  "// #ifdef WITH_CUDA",
  "// #include \"cuda/vision.h\"",
  "// #endif",
  "",
  "// // Interface for Python",
  "// at::Tensor RoIAlign_forward(const at::Tensor& input,    // Input feature map.",
  "//                             const at::Tensor& rois,     // List of RoIs to",
  "//                             pool over. const float scale_h,  // The scale of",
  "//                             the image features. RoIs will be scaled to this.",
  "//                             const float scale_w,",
  "//                             const int pooled_height,    // The height of the",
  "//                             pooled feature map. const int pooled_width, //",
  "//                             The width of the pooled feature const int",
  "//                             sampling_ratio)   // The number of points to",
  "//                             sample in each bin along each axis.",
  "// \x7b",
  "//   if (input.type().is_cuda()) \x7b",
  "// #ifdef WITH_CUDA",
  "//     return RoIAlign_forward_cuda(input, rois, scale_h, scale_w,",
  "//     pooled_height, pooled_width, sampling_ratio);",
  "// #else",
  "//     AT_ERROR(\"Not compiled with GPU support\");",
  "// #endif",
  "//   \x7d",
  "//   return RoIAlign_forward_cpu(input, rois, scale_h, scale_w, pooled_height,",
  "//   pooled_width, sampling_ratio);",
  "// \x7d",
  "",
  "// at::Tensor RoIAlign_backward(const at::Tensor& grad,",
  "//                              const at::Tensor& rois,",
  "//                              const float scale_h,",
  "//                              const float scale_w,",
  "//                              const int pooled_height,",
  "//                              const int pooled_width,",
  "//                              const int batch_size,",
  "//                              const int channels,",
  "//                              const int height,",
  "//                              const int width,",
  "//                              const int sampling_ratio) \x7b",
  "//   if (grad.type().is_cuda()) \x7b",
  "// #ifdef WITH_CUDA",
  "//     return RoIAlign_backward_cuda(grad, rois, scale_h, scale_w,",
  "//     pooled_height, pooled_width, batch_size, channels, height, width,",
  "//     sampling_ratio);",
  "// #else",
  "//     AT_ERROR(\"Not compiled with GPU support\");",
  "// #endif",
  "//   \x7d",
  "//   return RoIAlign_backward_cpu(grad, rois, scale_h, scale_w, pooled_height,",
  "//   pooled_width, batch_size, channels, height, width, sampling_ratio);",
  "// \x7d"]

/-- A source line is disabled when it is blank or is a `//` line comment: such
a line contributes no tokens to the C++ translation unit, so it can define no
function, type, or other symbol. -/
def isDisabledLine (s : String) : Bool :=
  s.data.isEmpty || s.data.take 2 == [Char.ofNat 47, Char.ofNat 47]

/-- C4: every line of the supplied `RoIAlign.h` is disabled (a `//` comment
line or blank), so the file contains no active code: the list of active
(non-disabled) lines is empty, hence compiling it defines no functions,
types, or other symbols. -/
theorem RoIAlign_h_all_lines_disabled :
    RoIAlign_h_lines.all isDisabledLine = true ∧
    RoIAlign_h_lines.filter (fun s => !isDisabledLine s) = [] := by
  constructor
  · decide
  · decide

/-- C2: `RoIAlign_forward` branches on whether `input` resides on a GPU
device: if it does and `WITH_CUDA` is defined, it returns
`RoIAlign_forward_cuda` applied to exactly the same arguments in the same
order; if the input does not reside on a GPU device, it returns
`RoIAlign_forward_cpu` applied to exactly the same arguments in the same
order. -/
theorem RoIAlign_forward_dispatch (WITH_CUDA : Bool)
    (kcuda kcpu : ForwardKernel) (input rois : Tensor) (scale_h scale_w : CFloat)
    (pooled_height pooled_width sampling_ratio : Int) :
    (input.type.is_cuda = true → WITH_CUDA = true →
      RoIAlign_forward WITH_CUDA kcuda kcpu input rois scale_h scale_w
          pooled_height pooled_width sampling_ratio
        = Except.ok (kcuda input rois scale_h scale_w
            pooled_height pooled_width sampling_ratio)) ∧
    (input.type.is_cuda = false →
      RoIAlign_forward WITH_CUDA kcuda kcpu input rois scale_h scale_w
          pooled_height pooled_width sampling_ratio
        = Except.ok (kcpu input rois scale_h scale_w
            pooled_height pooled_width sampling_ratio)) := by
  constructor
  · intro hc hw
    simp [RoIAlign_forward, hc, hw]
  · intro hc
    simp [RoIAlign_forward, hc]

/-- C2 witness: both branches of `RoIAlign_forward_dispatch` instantiated at
concrete inputs. -/
theorem RoIAlign_forward_dispatch_witness :
    RoIAlign_forward true kfId kfId tGPU tCPU f0 f0 7 7 2
      = Except.ok (kfId tGPU tCPU f0 f0 7 7 2) ∧
    RoIAlign_forward false kfId kfId tCPU tGPU f0 f0 7 7 2
      = Except.ok (kfId tCPU tGPU f0 f0 7 7 2) :=
  ⟨(RoIAlign_forward_dispatch true kfId kfId tGPU tCPU f0 f0 7 7 2).1 rfl rfl,
   (RoIAlign_forward_dispatch false kfId kfId tCPU tGPU f0 f0 7 7 2).2 rfl⟩

/-- C3: `RoIAlign_backward` branches on whether `grad` resides on a GPU
device: if it does and `WITH_CUDA` is defined, it returns
`RoIAlign_backward_cuda` applied to exactly the same arguments in the same
order; if the grad does not reside on a GPU device, it returns
`RoIAlign_backward_cpu` applied to exactly the same arguments in the same
order. -/
theorem RoIAlign_backward_dispatch (WITH_CUDA : Bool)
    (bcuda bcpu : BackwardKernel) (grad rois : Tensor) (scale_h scale_w : CFloat)
    (pooled_height pooled_width batch_size channels height width sampling_ratio : Int) :
    (grad.type.is_cuda = true → WITH_CUDA = true →
      RoIAlign_backward WITH_CUDA bcuda bcpu grad rois scale_h scale_w
          pooled_height pooled_width batch_size channels height width sampling_ratio
        = Except.ok (bcuda grad rois scale_h scale_w
            pooled_height pooled_width batch_size channels height width sampling_ratio)) ∧
    (grad.type.is_cuda = false →
      RoIAlign_backward WITH_CUDA bcuda bcpu grad rois scale_h scale_w
          pooled_height pooled_width batch_size channels height width sampling_ratio
        = Except.ok (bcpu grad rois scale_h scale_w
            pooled_height pooled_width batch_size channels height width sampling_ratio)) := by
  constructor
  · intro hc hw
    simp [RoIAlign_backward, hc, hw]
  · intro hc
    simp [RoIAlign_backward, hc]

/-- C3 witness: both branches of `RoIAlign_backward_dispatch` instantiated at
concrete inputs. -/
theorem RoIAlign_backward_dispatch_witness :
    RoIAlign_backward true kbId kbId tGPU tCPU f0 f0 7 7 1 3 8 8 2
      = Except.ok (kbId tGPU tCPU f0 f0 7 7 1 3 8 8 2) ∧
    RoIAlign_backward false kbId kbId tCPU tGPU f0 f0 7 7 1 3 8 8 2
      = Except.ok (kbId tCPU tGPU f0 f0 7 7 1 3 8 8 2) :=
  ⟨(RoIAlign_backward_dispatch true kbId kbId tGPU tCPU f0 f0 7 7 1 3 8 8 2).1 rfl rfl,
   (RoIAlign_backward_dispatch false kbId kbId tCPU tGPU f0 f0 7 7 1 3 8 8 2).2 rfl⟩

/-- C1 counterexample: at a concrete call in a build without `WITH_CUDA`,
with the input tensor on a GPU device, the call does abort, but its fixed
failure message is "Not compiled with GPU support" (capital N, as written in
`AT_ERROR`), not "not compiled with GPU support" as the claim states. -/
theorem RoIAlign_abort_message_counterexample :
    RoIAlign_forward false kfId kfId tGPU tCPU f0 f0 7 7 2
      ≠ Except.error "not compiled with GPU support" ∧
    RoIAlign_forward false kfId kfId tGPU tCPU f0 f0 7 7 2
      = Except.error "Not compiled with GPU support" := by
  constructor
  · intro h
    exact absurd (Except.error.inj h) (by decide)
  · rfl

/-- C1 (amended): in a build where `WITH_CUDA` is undefined, a call to
`RoIAlign_forward` whose `input` resides on a GPU device, or to
`RoIAlign_backward` whose `grad` resides on a GPU device, aborts with the
fixed failure message "Not compiled with GPU support"; the result is this
error for every choice of kernel implementations, so no kernel is invoked. -/
theorem RoIAlign_abort_message (kcuda kcpu : ForwardKernel)
    (bcuda bcpu : BackwardKernel) (input grad rois : Tensor)
    (scale_h scale_w : CFloat)
    (pooled_height pooled_width batch_size channels height width sampling_ratio : Int)
    (hin : input.type.is_cuda = true) (hg : grad.type.is_cuda = true) :
    RoIAlign_forward false kcuda kcpu input rois scale_h scale_w
        pooled_height pooled_width sampling_ratio
      = Except.error "Not compiled with GPU support" ∧
    RoIAlign_backward false bcuda bcpu grad rois scale_h scale_w
        pooled_height pooled_width batch_size channels height width sampling_ratio
      = Except.error "Not compiled with GPU support" := by
  constructor
  · simp [RoIAlign_forward, hin]
  · simp [RoIAlign_backward, hg]

/-- C1 witness: the amended abort property instantiated at concrete GPU
tensors in a build without `WITH_CUDA`. -/
theorem RoIAlign_abort_message_witness :
    RoIAlign_forward false kfId kfId tGPU tCPU f0 f0 7 7 2
      = Except.error "Not compiled with GPU support" ∧
    RoIAlign_backward false kbId kbId tGPU tCPU f0 f0 7 7 1 3 8 8 2
      = Except.error "Not compiled with GPU support" :=
  RoIAlign_abort_message kfId kfId kbId kbId tGPU tGPU tCPU f0 f0 7 7 1 3 8 8 2 rfl rfl

/-- C5: `RoIAlign_forward` takes exactly the parameters `(input, rois,
scale_h, scale_w, pooled_height, pooled_width, sampling_ratio)`, in that
order and at the modelled C types (the binders below list them in source
order, after the build flag and the external kernels), and returns a tensor:
on every such argument tuple the call yields `Except.ok` of some tensor,
except for the build-guard abort. -/
theorem RoIAlign_forward_signature (WITH_CUDA : Bool)
    (kcuda kcpu : ForwardKernel) (input rois : Tensor) (scale_h scale_w : CFloat)
    (pooled_height pooled_width sampling_ratio : Int) :
    (∃ t : Tensor,
      RoIAlign_forward WITH_CUDA kcuda kcpu input rois scale_h scale_w
          pooled_height pooled_width sampling_ratio
        = Except.ok t) ∨
    RoIAlign_forward WITH_CUDA kcuda kcpu input rois scale_h scale_w
        pooled_height pooled_width sampling_ratio
      = Except.error "Not compiled with GPU support" := by
  unfold RoIAlign_forward
  cases hc : input.type.is_cuda
  · refine Or.inl ⟨kcpu input rois scale_h scale_w pooled_height pooled_width sampling_ratio, ?_⟩
    simp
  · cases hw : WITH_CUDA
    · exact Or.inr (by simp)
    · refine Or.inl ⟨kcuda input rois scale_h scale_w pooled_height pooled_width sampling_ratio, ?_⟩
      simp

/-- C6: `RoIAlign_backward` takes exactly the parameters `(grad, rois,
scale_h, scale_w, pooled_height, pooled_width, batch_size, channels, height,
width, sampling_ratio)`, in that order and at the modelled C types (the
binders below list them in source order, after the build flag and the
external kernels), and returns a tensor: on every such argument tuple the
call yields `Except.ok` of some tensor, except for the build-guard abort. -/
theorem RoIAlign_backward_signature (WITH_CUDA : Bool)
    (bcuda bcpu : BackwardKernel) (grad rois : Tensor) (scale_h scale_w : CFloat)
    (pooled_height pooled_width batch_size channels height width sampling_ratio : Int) :
    (∃ t : Tensor,
      RoIAlign_backward WITH_CUDA bcuda bcpu grad rois scale_h scale_w
          pooled_height pooled_width batch_size channels height width sampling_ratio
        = Except.ok t) ∨
    RoIAlign_backward WITH_CUDA bcuda bcpu grad rois scale_h scale_w
        pooled_height pooled_width batch_size channels height width sampling_ratio
      = Except.error "Not compiled with GPU support" := by
  unfold RoIAlign_backward
  cases hc : grad.type.is_cuda
  · refine Or.inl ⟨bcpu grad rois scale_h scale_w pooled_height pooled_width
      batch_size channels height width sampling_ratio, ?_⟩
    simp
  · cases hw : WITH_CUDA
    · exact Or.inr (by simp)
    · refine Or.inl ⟨bcuda grad rois scale_h scale_w pooled_height pooled_width
        batch_size channels height width sampling_ratio, ?_⟩
      simp

/-- A second concrete GPU tensor (same device, different payload). -/
def tGPU2 : Tensor := ⟨⟨true⟩, 5⟩

/-- A second concrete CPU tensor (same device, different payload). -/
def tCPU2 : Tensor := ⟨⟨false⟩, 6⟩

/-- A second concrete float value. -/
def f1 : CFloat := ⟨1⟩

/-- A second concrete forward kernel (returns its second argument). -/
def kfId2 : ForwardKernel := fun _ rois _ _ _ _ _ => rois

/-- A second concrete backward kernel (returns its second argument). -/
def kbId2 : BackwardKernel := fun _ rois _ _ _ _ _ _ _ _ _ => rois

/-- C7: the "Not compiled with GPU support" abort is the only error behavior
of both entry points and is reached exactly under its stated condition: with
`WITH_CUDA` defined every call returns a tensor; a call whose first tensor
argument is not on a GPU device returns a tensor in any build; and any error
either call may return carries exactly that message and occurs only when
`WITH_CUDA` is undefined and the first tensor argument is on a GPU device. -/
theorem RoIAlign_abort_only_error (WITH_CUDA : Bool)
    (kcuda kcpu : ForwardKernel) (bcuda bcpu : BackwardKernel)
    (input grad rois : Tensor) (scale_h scale_w : CFloat)
    (pooled_height pooled_width batch_size channels height width sampling_ratio : Int) :
    (WITH_CUDA = true → ∃ t : Tensor,
      RoIAlign_forward WITH_CUDA kcuda kcpu input rois scale_h scale_w
        pooled_height pooled_width sampling_ratio = Except.ok t) ∧
    (input.type.is_cuda = false → ∃ t : Tensor,
      RoIAlign_forward WITH_CUDA kcuda kcpu input rois scale_h scale_w
        pooled_height pooled_width sampling_ratio = Except.ok t) ∧
    (∀ e : String,
      RoIAlign_forward WITH_CUDA kcuda kcpu input rois scale_h scale_w
        pooled_height pooled_width sampling_ratio = Except.error e →
      e = "Not compiled with GPU support" ∧ WITH_CUDA = false ∧ input.type.is_cuda = true) ∧
    (WITH_CUDA = true → ∃ t : Tensor,
      RoIAlign_backward WITH_CUDA bcuda bcpu grad rois scale_h scale_w
        pooled_height pooled_width batch_size channels height width sampling_ratio
        = Except.ok t) ∧
    (grad.type.is_cuda = false → ∃ t : Tensor,
      RoIAlign_backward WITH_CUDA bcuda bcpu grad rois scale_h scale_w
        pooled_height pooled_width batch_size channels height width sampling_ratio
        = Except.ok t) ∧
    (∀ e : String,
      RoIAlign_backward WITH_CUDA bcuda bcpu grad rois scale_h scale_w
        pooled_height pooled_width batch_size channels height width sampling_ratio
        = Except.error e →
      e = "Not compiled with GPU support" ∧ WITH_CUDA = false ∧ grad.type.is_cuda = true) := by
  refine ⟨?_, ?_, ?_, ?_, ?_, ?_⟩
  · intro hw
    cases hc : input.type.is_cuda
    · exact ⟨kcpu input rois scale_h scale_w pooled_height pooled_width sampling_ratio,
        by simp [RoIAlign_forward, hc]⟩
    · exact ⟨kcuda input rois scale_h scale_w pooled_height pooled_width sampling_ratio,
        by simp [RoIAlign_forward, hc, hw]⟩
  · intro hc
    exact ⟨kcpu input rois scale_h scale_w pooled_height pooled_width sampling_ratio,
      by simp [RoIAlign_forward, hc]⟩
  · intro e he
    cases hc : input.type.is_cuda
    · simp [RoIAlign_forward, hc] at he
    · cases hw : WITH_CUDA
      · simp only [RoIAlign_forward, hc, hw] at he
        simp at he
        exact ⟨he.symm, rfl, rfl⟩
      · simp [RoIAlign_forward, hc, hw] at he
  · intro hw
    cases hc : grad.type.is_cuda
    · exact ⟨bcpu grad rois scale_h scale_w pooled_height pooled_width
        batch_size channels height width sampling_ratio, by simp [RoIAlign_backward, hc]⟩
    · exact ⟨bcuda grad rois scale_h scale_w pooled_height pooled_width
        batch_size channels height width sampling_ratio, by simp [RoIAlign_backward, hc, hw]⟩
  · intro hc
    exact ⟨bcpu grad rois scale_h scale_w pooled_height pooled_width
      batch_size channels height width sampling_ratio, by simp [RoIAlign_backward, hc]⟩
  · intro e he
    cases hc : grad.type.is_cuda
    · simp [RoIAlign_backward, hc] at he
    · cases hw : WITH_CUDA
      · simp only [RoIAlign_backward, hc, hw] at he
        simp at he
        exact ⟨he.symm, rfl, rfl⟩
      · simp [RoIAlign_backward, hc, hw] at he

/-- C7 witness: each conjunct of `RoIAlign_abort_only_error` instantiated at
concrete inputs that satisfy its hypothesis. -/
theorem RoIAlign_abort_only_error_witness :
    (∃ t : Tensor, RoIAlign_forward true kfId kfId tGPU tCPU f0 f0 7 7 2 = Except.ok t) ∧
    (∃ t : Tensor, RoIAlign_forward false kfId kfId tCPU tGPU f0 f0 7 7 2 = Except.ok t) ∧
    ("Not compiled with GPU support" = "Not compiled with GPU support" ∧
      false = false ∧ tGPU.type.is_cuda = true) ∧
    (∃ t : Tensor, RoIAlign_backward true kbId kbId tGPU tCPU f0 f0 7 7 1 3 8 8 2 = Except.ok t) ∧
    (∃ t : Tensor, RoIAlign_backward false kbId kbId tCPU tGPU f0 f0 7 7 1 3 8 8 2 = Except.ok t) ∧
    ("Not compiled with GPU support" = "Not compiled with GPU support" ∧
      false = false ∧ tGPU2.type.is_cuda = true) :=
  ⟨(RoIAlign_abort_only_error true kfId kfId kbId kbId tGPU tGPU tCPU f0 f0 7 7 1 3 8 8 2).1 rfl,
   (RoIAlign_abort_only_error true kfId kfId kbId kbId tCPU tCPU tGPU f0 f0 7 7 1 3 8 8 2).2.1 rfl,
   (RoIAlign_abort_only_error false kfId kfId kbId kbId tGPU tGPU tCPU f0 f0 7 7 1 3 8 8 2).2.2.1
     "Not compiled with GPU support" rfl,
   (RoIAlign_abort_only_error true kfId kfId kbId kbId tGPU tGPU tCPU f0 f0 7 7 1 3 8 8 2).2.2.2.1 rfl,
   (RoIAlign_abort_only_error true kfId kfId kbId kbId tCPU tCPU tGPU f0 f0 7 7 1 3 8 8 2).2.2.2.2.1 rfl,
   (RoIAlign_abort_only_error false kfId kfId kbId kbId tGPU2 tGPU2 tCPU f0 f0 7 7 1 3 8 8 2).2.2.2.2.2
     "Not compiled with GPU support" rfl⟩

/-- C8: each wrapper performs no computation other than the device check
selecting the code path: whenever a call returns a tensor, that tensor is
exactly the selected kernel (CUDA when the first tensor argument is on a GPU
device and `WITH_CUDA` is defined, CPU when it is not on a GPU device)
applied to the unmodified arguments. -/
theorem RoIAlign_wrapper_adds_nothing (WITH_CUDA : Bool)
    (kcuda kcpu : ForwardKernel) (bcuda bcpu : BackwardKernel)
    (input grad rois : Tensor) (scale_h scale_w : CFloat)
    (pooled_height pooled_width batch_size channels height width sampling_ratio : Int)
    (t u : Tensor) :
    (RoIAlign_forward WITH_CUDA kcuda kcpu input rois scale_h scale_w
        pooled_height pooled_width sampling_ratio = Except.ok t →
      (input.type.is_cuda = true ∧ WITH_CUDA = true ∧
        t = kcuda input rois scale_h scale_w pooled_height pooled_width sampling_ratio) ∨
      (input.type.is_cuda = false ∧
        t = kcpu input rois scale_h scale_w pooled_height pooled_width sampling_ratio)) ∧
    (RoIAlign_backward WITH_CUDA bcuda bcpu grad rois scale_h scale_w
        pooled_height pooled_width batch_size channels height width sampling_ratio
        = Except.ok u →
      (grad.type.is_cuda = true ∧ WITH_CUDA = true ∧
        u = bcuda grad rois scale_h scale_w pooled_height pooled_width
              batch_size channels height width sampling_ratio) ∨
      (grad.type.is_cuda = false ∧
        u = bcpu grad rois scale_h scale_w pooled_height pooled_width
              batch_size channels height width sampling_ratio)) := by
  constructor
  · intro h
    cases hc : input.type.is_cuda
    · simp [RoIAlign_forward, hc] at h
      exact Or.inr ⟨rfl, h.symm⟩
    · cases hw : WITH_CUDA
      · simp [RoIAlign_forward, hc, hw] at h
      · simp [RoIAlign_forward, hc, hw] at h
        exact Or.inl ⟨rfl, rfl, h.symm⟩
  · intro h
    cases hc : grad.type.is_cuda
    · simp [RoIAlign_backward, hc] at h
      exact Or.inr ⟨rfl, h.symm⟩
    · cases hw : WITH_CUDA
      · simp [RoIAlign_backward, hc, hw] at h
      · simp [RoIAlign_backward, hc, hw] at h
        exact Or.inl ⟨rfl, rfl, h.symm⟩

/-- C8 witness: both conjuncts of `RoIAlign_wrapper_adds_nothing`
instantiated at a concrete GPU call in a CUDA-enabled build, discharging the
`Except.ok` hypotheses by evaluation. -/
theorem RoIAlign_wrapper_adds_nothing_witness :
    ((tGPU.type.is_cuda = true ∧ true = true ∧
        kfId tGPU tCPU f0 f0 7 7 2 = kfId tGPU tCPU f0 f0 7 7 2) ∨
      (tGPU.type.is_cuda = false ∧
        kfId tGPU tCPU f0 f0 7 7 2 = kfId tGPU tCPU f0 f0 7 7 2)) ∧
    ((tGPU.type.is_cuda = true ∧ true = true ∧
        kbId tGPU tCPU f0 f0 7 7 1 3 8 8 2 = kbId tGPU tCPU f0 f0 7 7 1 3 8 8 2) ∨
      (tGPU.type.is_cuda = false ∧
        kbId tGPU tCPU f0 f0 7 7 1 3 8 8 2 = kbId tGPU tCPU f0 f0 7 7 1 3 8 8 2)) :=
  ⟨(RoIAlign_wrapper_adds_nothing true kfId kfId kbId kbId tGPU tGPU tCPU f0 f0 7 7 1 3 8 8 2
      (kfId tGPU tCPU f0 f0 7 7 2) (kbId tGPU tCPU f0 f0 7 7 1 3 8 8 2)).1 rfl,
   (RoIAlign_wrapper_adds_nothing true kfId kfId kbId kbId tGPU tGPU tCPU f0 f0 7 7 1 3 8 8 2
      (kfId tGPU tCPU f0 f0 7 7 2) (kbId tGPU tCPU f0 f0 7 7 1 3 8 8 2)).2 rfl⟩

/-- C9: kernel selection depends only on the device of the first tensor
argument.  The first two conjuncts characterise each wrapper as the
interpretation of `dispatchBranch` on the build flag and its first tensor
argument alone; the last two state the hyperproperty: two calls whose first
tensors agree on residing on a GPU device take the same branch, whatever
`rois` or any scalar argument is — in particular the device of `rois` never
influences the dispatch, since `rois` is not an input of `dispatchBranch`. -/
theorem RoIAlign_branch_only_device (WITH_CUDA : Bool)
    (kcuda kcpu : ForwardKernel) (bcuda bcpu : BackwardKernel)
    (input input₂ grad grad₂ rois : Tensor) (scale_h scale_w : CFloat)
    (pooled_height pooled_width batch_size channels height width sampling_ratio : Int) :
    (RoIAlign_forward WITH_CUDA kcuda kcpu input rois scale_h scale_w
        pooled_height pooled_width sampling_ratio
      = match dispatchBranch WITH_CUDA input with
        | Branch.cuda => Except.ok (kcuda input rois scale_h scale_w
            pooled_height pooled_width sampling_ratio)
        | Branch.cpu => Except.ok (kcpu input rois scale_h scale_w
            pooled_height pooled_width sampling_ratio)
        | Branch.abort => Except.error "Not compiled with GPU support") ∧
    (RoIAlign_backward WITH_CUDA bcuda bcpu grad rois scale_h scale_w
        pooled_height pooled_width batch_size channels height width sampling_ratio
      = match dispatchBranch WITH_CUDA grad with
        | Branch.cuda => Except.ok (bcuda grad rois scale_h scale_w
            pooled_height pooled_width batch_size channels height width sampling_ratio)
        | Branch.cpu => Except.ok (bcpu grad rois scale_h scale_w
            pooled_height pooled_width batch_size channels height width sampling_ratio)
        | Branch.abort => Except.error "Not compiled with GPU support") ∧
    (input.type.is_cuda = input₂.type.is_cuda →
      dispatchBranch WITH_CUDA input = dispatchBranch WITH_CUDA input₂) ∧
    (grad.type.is_cuda = grad₂.type.is_cuda →
      dispatchBranch WITH_CUDA grad = dispatchBranch WITH_CUDA grad₂) := by
  refine ⟨?_, ?_, ?_, ?_⟩
  · cases hc : input.type.is_cuda
    · simp [RoIAlign_forward, dispatchBranch, hc]
    · cases hw : WITH_CUDA
      · simp [RoIAlign_forward, dispatchBranch, hc, hw]
      · simp [RoIAlign_forward, dispatchBranch, hc, hw]
  · cases hc : grad.type.is_cuda
    · simp [RoIAlign_backward, dispatchBranch, hc]
    · cases hw : WITH_CUDA
      · simp [RoIAlign_backward, dispatchBranch, hc, hw]
      · simp [RoIAlign_backward, dispatchBranch, hc, hw]
  · intro h
    simp [dispatchBranch, h]
  · intro h
    simp [dispatchBranch, h]

/-- C9 witness: the branch hyperproperty of `RoIAlign_branch_only_device`
instantiated at concrete pairs of tensors agreeing on the device while
differing in payload, discharging the device-agreement hypotheses by
evaluation. -/
theorem RoIAlign_branch_only_device_witness :
    dispatchBranch true tGPU = dispatchBranch true tGPU2 ∧
    dispatchBranch false tCPU = dispatchBranch false tCPU2 :=
  ⟨(RoIAlign_branch_only_device true kfId kfId kbId kbId tGPU tGPU2 tGPU tGPU2 tCPU
      f0 f0 7 7 1 3 8 8 2).2.2.1 rfl,
   (RoIAlign_branch_only_device false kfId kfId kbId kbId tCPU tCPU2 tCPU tCPU2 tGPU
      f0 f0 7 7 1 3 8 8 2).2.2.2 rfl⟩

/-- C10: when the missing-GPU-support abort is raised, no kernel has been
invoked and no argument beyond the device check influences the outcome: in a
build without `WITH_CUDA`, a call whose first tensor argument is on a GPU
device returns exactly the error, and its result is identical to that of a
call with arbitrarily different kernel implementations, `rois`, and scalar
arguments — so the failing call has no effect other than the error itself. -/
theorem RoIAlign_abort_before_kernel
    (kcuda kcpu kcuda₂ kcpu₂ : ForwardKernel) (bcuda bcpu bcuda₂ bcpu₂ : BackwardKernel)
    (input grad rois rois₂ : Tensor) (scale_h scale_w scale_h₂ scale_w₂ : CFloat)
    (pooled_height pooled_width batch_size channels height width sampling_ratio : Int)
    (pooled_height₂ pooled_width₂ batch_size₂ channels₂ height₂ width₂ sampling_ratio₂ : Int)
    (hin : input.type.is_cuda = true) (hg : grad.type.is_cuda = true) :
    RoIAlign_forward false kcuda kcpu input rois scale_h scale_w
        pooled_height pooled_width sampling_ratio
      = Except.error "Not compiled with GPU support" ∧
    RoIAlign_forward false kcuda kcpu input rois scale_h scale_w
        pooled_height pooled_width sampling_ratio
      = RoIAlign_forward false kcuda₂ kcpu₂ input rois₂ scale_h₂ scale_w₂
          pooled_height₂ pooled_width₂ sampling_ratio₂ ∧
    RoIAlign_backward false bcuda bcpu grad rois scale_h scale_w
        pooled_height pooled_width batch_size channels height width sampling_ratio
      = Except.error "Not compiled with GPU support" ∧
    RoIAlign_backward false bcuda bcpu grad rois scale_h scale_w
        pooled_height pooled_width batch_size channels height width sampling_ratio
      = RoIAlign_backward false bcuda₂ bcpu₂ grad rois₂ scale_h₂ scale_w₂
          pooled_height₂ pooled_width₂ batch_size₂ channels₂ height₂ width₂
          sampling_ratio₂ := by
  refine ⟨?_, ?_, ?_, ?_⟩
  · simp [RoIAlign_forward, hin]
  · simp [RoIAlign_forward, hin]
  · simp [RoIAlign_backward, hg]
  · simp [RoIAlign_backward, hg]

/-- C10 witness: `RoIAlign_abort_before_kernel` instantiated at a concrete
GPU tensor with two entirely different kernel/argument bundles, discharging
the device hypotheses by evaluation. -/
theorem RoIAlign_abort_before_kernel_witness :
    RoIAlign_forward false kfId kfId tGPU tCPU f0 f0 7 7 2
      = Except.error "Not compiled with GPU support" ∧
    RoIAlign_forward false kfId kfId tGPU tCPU f0 f0 7 7 2
      = RoIAlign_forward false kfId2 kfId2 tGPU tGPU2 f1 f1 3 3 1 ∧
    RoIAlign_backward false kbId kbId tGPU tCPU f0 f0 7 7 1 3 8 8 2
      = Except.error "Not compiled with GPU support" ∧
    RoIAlign_backward false kbId kbId tGPU tCPU f0 f0 7 7 1 3 8 8 2
      = RoIAlign_backward false kbId2 kbId2 tGPU tGPU2 f1 f1 3 3 2 2 4 4 1 :=
  RoIAlign_abort_before_kernel kfId kfId kfId2 kfId2 kbId kbId kbId2 kbId2
    tGPU tGPU tCPU tGPU2 f0 f0 f1 f1 7 7 1 3 8 8 2 3 3 2 2 4 4 1 rfl rfl
